import Mathlib

/-!
Shallow embedding of the meetup-management frontend core:
the past-meetups filtering/pagination engine (`PastMeetupsComponent`)
and the home-page attendance/pie-chart logic (`HomeComponent`).

JavaScript `Date` values are modelled as integer millisecond timestamps.
A broken-down wall-clock instant (`Now`) carries the fields the code reads
through `getFullYear`/`getMonth`/`getDate` plus the millisecond-of-day, and
`dateValue` converts broken-down fields to a timestamp using the ECMAScript
`MakeDay` normalization (out-of-range months carry into the year, day-of-month
overflow rolls into the next month), via the standard civil-calendar day count.
-/

/-- Day count since 1970-01-01 for a civil (proleptic Gregorian) date.
`m` is the 1-based month (assumed in 1..12 after normalization); `d` may lie
outside the month's length, in which case the count simply extends linearly,
which matches ECMAScript day normalization. -/
def daysFromCivil (y m d : ℤ) : ℤ :=
  let y2 : ℤ := if m ≤ 2 then y - 1 else y
  let era : ℤ := Int.ediv y2 400
  let yoe : ℤ := y2 - era * 400
  let mp : ℤ := if 2 < m then m - 3 else m + 9
  let doy : ℤ := Int.ediv (153 * mp + 2) 5 + d - 1
  let doe : ℤ := yoe * 365 + Int.ediv yoe 4 - Int.ediv yoe 100 + doy
  era * 146097 + doe - 719468

/-- ECMAScript `MakeDay`: month is 0-based and may be any integer; it is
normalized into the year, and day-of-month overflow extends linearly. -/
def jsMakeDay (year month day : ℤ) : ℤ :=
  daysFromCivil (year + Int.ediv month 12) (Int.emod month 12 + 1) day

/-- Millisecond timestamp of the given broken-down fields (month 0-based). -/
def dateValue (year month day msOfDay : ℤ) : ℤ :=
  jsMakeDay year month day * 86400000 + msOfDay

/-- Broken-down wall-clock instant as read by the component through
`getFullYear` (year), `getMonth` (0-based month), `getDate` (day of month)
and the time-of-day in milliseconds. -/
structure Now where
  year : ℤ
  month : ℤ
  day : ℤ
  msOfDay : ℤ
deriving DecidableEq, Repr

/-- Meetup entity (`interface Meetup`); `date` is a millisecond timestamp. -/
structure Meetup where
  id : ℤ
  title : String
  presenter : String
  date : ℤ
  description : String
  totalAttendance : ℤ
  newRegistrations : ℤ
  regularAttendees : ℤ
deriving DecidableEq, Repr

/-- Date filter options (`type DateFilterType`). -/
inductive DateFilterType where
  | all
  | lastMonth
  | last3Months
  | last6Months
  | thisYear
deriving DecidableEq, Repr

/-- Attendance filter options (`type AttendanceFilterType`). -/
inductive AttendanceFilterType where
  | all
  | low
  | medium
  | high
deriving DecidableEq, Repr

/-- Lowercasing as used by `toLowerCase()` (per-character, ASCII-relevant). -/
def jsToLower (s : String) : String :=
  ⟨s.data.map Char.toLower⟩

/-- Does `needle` match at the head of `hay`? -/
def leadMatch : List Char → List Char → Bool
  | [], _ => true
  | _ :: _, [] => false
  | a :: as, b :: bs => a == b && leadMatch as bs

/-- Does `needle` occur contiguously somewhere in `hay`? -/
def occursIn (needle : List Char) : List Char → Bool
  | [] => needle.isEmpty
  | b :: t => leadMatch needle (b :: t) || occursIn needle t

/-- JavaScript `s.includes(sub)`: substring containment. -/
def jsIncludes (s sub : String) : Bool :=
  occursIn sub.data s.data

/-- Mutable state of `PastMeetupsComponent`: the search/filter/pagination
signals plus the backing meetup list. `currentPage` is kept as a natural
number; every reachable state has `currentPage ≥ 1`. -/
structure PastMeetupsState where
  searchTerm : String
  dateFilter : DateFilterType
  attendanceFilter : AttendanceFilterType
  currentPage : ℕ
  itemsPerPage : ℕ
  meetups : List Meetup
deriving DecidableEq, Repr

/-- Cutoff timestamp computed in the date-filter branch: `filterDate` starts
as a copy of `now`, then `setMonth(now.getMonth() - k)` (keeping day of month
and time of day) or `setFullYear(now.getFullYear(), 0, 1)` (keeping time of
day) is applied; for `all` no case matches and `filterDate` stays at `now`. -/
def filterDateCutoff (now : Now) : DateFilterType → ℤ
  | DateFilterType.lastMonth => dateValue now.year (now.month - 1) now.day now.msOfDay
  | DateFilterType.last3Months => dateValue now.year (now.month - 3) now.day now.msOfDay
  | DateFilterType.last6Months => dateValue now.year (now.month - 6) now.day now.msOfDay
  | DateFilterType.thisYear => dateValue now.year 0 1 now.msOfDay
  | DateFilterType.all => dateValue now.year now.month now.day now.msOfDay

/-- The `filteredMeetups` computed signal: search filter, then date filter,
then attendance filter, each applied only when active, order preserving. -/
def filteredMeetups (now : Now) (st : PastMeetupsState) : List Meetup :=
  let search := jsToLower st.searchTerm
  let l1 := if search ≠ "" then
      st.meetups.filter (fun m =>
        jsIncludes (jsToLower m.title) search || jsIncludes (jsToLower m.presenter) search)
    else st.meetups
  let l2 := if st.dateFilter ≠ DateFilterType.all then
      l1.filter (fun m => decide (filterDateCutoff now st.dateFilter ≤ m.date))
    else l1
  if st.attendanceFilter ≠ AttendanceFilterType.all then
    l2.filter (fun m =>
      match st.attendanceFilter with
      | AttendanceFilterType.low => decide (m.totalAttendance < 20)
      | AttendanceFilterType.medium =>
          decide (20 ≤ m.totalAttendance) && decide (m.totalAttendance ≤ 50)
      | AttendanceFilterType.high => decide (50 < m.totalAttendance)
      | AttendanceFilterType.all => true)
  else l2

/-- The `totalPages` computed signal: `Math.ceil(filtered.length / itemsPerPage)`,
as ceiling division on naturals. -/
def totalPages (now : Now) (st : PastMeetupsState) : ℕ :=
  ((filteredMeetups now st).length + st.itemsPerPage - 1) / st.itemsPerPage

/-- The `startIndex` computed signal: `(currentPage - 1) * itemsPerPage`. -/
def startIndex (st : PastMeetupsState) : ℕ :=
  (st.currentPage - 1) * st.itemsPerPage

/-- The `paginatedMeetups` computed signal:
`filtered.slice(start, start + itemsPerPage)`. -/
def paginatedMeetups (now : Now) (st : PastMeetupsState) : List Meetup :=
  ((filteredMeetups now st).drop (startIndex st)).take st.itemsPerPage

/-- `nextPage()`: advance only when `currentPage < totalPages`. -/
def nextPage (now : Now) (st : PastMeetupsState) : PastMeetupsState :=
  if st.currentPage < totalPages now st then
    { st with currentPage := st.currentPage + 1 }
  else st

/-- `previousPage()`: retreat only when `currentPage > 1`. -/
def previousPage (st : PastMeetupsState) : PastMeetupsState :=
  if 1 < st.currentPage then
    { st with currentPage := st.currentPage - 1 }
  else st

/-- `goToPage(page)`: set `currentPage` only when `1 <= page <= totalPages`. -/
def goToPage (now : Now) (page : ℕ) (st : PastMeetupsState) : PastMeetupsState :=
  if 1 ≤ page ∧ page ≤ totalPages now st then
    { st with currentPage := page }
  else st

/-- One caller-visible mutation of the component state: writing one of the
search/filter/pagination signals or invoking a pagination method. -/
inductive Op where
  | setSearch (s : String)
  | setDate (f : DateFilterType)
  | setAttendance (a : AttendanceFilterType)
  | setItemsPerPage (n : ℕ)
  | goto (n : ℕ)
  | next
  | prev
deriving DecidableEq, Repr

/-- Apply one mutation. Signal writes replace the field and touch nothing
else (the component performs no clamping of `currentPage` on filter or
page-size changes); the three pagination methods are as defined above. -/
def applyOp (now : Now) (o : Op) (st : PastMeetupsState) : PastMeetupsState :=
  match o with
  | Op.setSearch s => { st with searchTerm := s }
  | Op.setDate f => { st with dateFilter := f }
  | Op.setAttendance a => { st with attendanceFilter := a }
  | Op.setItemsPerPage n => { st with itemsPerPage := n }
  | Op.goto n => goToPage now n st
  | Op.next => nextPage now st
  | Op.prev => previousPage st

/-- Apply a sequence of mutations in order. -/
def runOps (now : Now) (ops : List Op) (st : PastMeetupsState) : PastMeetupsState :=
  ops.foldl (fun s o => applyOp now o s) st

/-- Initial component state for a given backing list: empty search, both
filters at `all`, `currentPage = 1`, `itemsPerPage = 5`. -/
def initState (ms : List Meetup) : PastMeetupsState :=
  { searchTerm := ""
    dateFilter := DateFilterType.all
    attendanceFilter := AttendanceFilterType.all
    currentPage := 1
    itemsPerPage := 5
    meetups := ms }

/-- A state is reachable when some sequence of mutations produces it from
the initial state over some backing list. -/
def Reachable (now : Now) (st : PastMeetupsState) : Prop :=
  ∃ (ms : List Meetup) (ops : List Op), st = runOps now ops (initState ms)

/-- First mock record. -/
def mockMeetup1 : Meetup :=
  { id := 1, title := "Java Meetup #10", presenter := "John Doe",
    date := dateValue 2024 7 15 0,
    description := "Explore the latest Java features and best practices for modern application development. We\x27ll cover performance optimization, new syntax improvements, and real-world use cases.",
    totalAttendance := 45, newRegistrations := 12, regularAttendees := 33 }

/-- Second mock record. -/
def mockMeetup2 : Meetup :=
  { id := 2, title := "Spring Boot Deep Dive", presenter := "Jane Smith",
    date := dateValue 2024 6 20 0,
    description := "A comprehensive look at Spring Boot architecture, auto-configuration, and advanced features. Learn how to build scalable microservices with Spring Boot 3.x.",
    totalAttendance := 38, newRegistrations := 8, regularAttendees := 30 }

/-- Third mock record. -/
def mockMeetup3 : Meetup :=
  { id := 3, title := "Microservices Architecture", presenter := "Bob Wilson",
    date := dateValue 2024 5 18 0,
    description := "Design patterns and best practices for building distributed systems. Covering service discovery, circuit breakers, and communication strategies.",
    totalAttendance := 52, newRegistrations := 15, regularAttendees := 37 }

/-- Fourth mock record. -/
def mockMeetup4 : Meetup :=
  { id := 4, title := "Java 21 Features", presenter := "Alice Johnson",
    date := dateValue 2024 4 16 0,
    description := "Discover the exciting new features in Java 21 LTS including virtual threads, pattern matching, and record patterns. Hands-on examples included.",
    totalAttendance := 41, newRegistrations := 10, regularAttendees := 31 }

/-- Fifth mock record. -/
def mockMeetup5 : Meetup :=
  { id := 5, title := "Testing Strategies", presenter := "Charlie Brown",
    date := dateValue 2024 3 14 0,
    description := "Effective testing strategies for Java applications. Learn about unit testing, integration testing, and test-driven development practices.",
    totalAttendance := 29, newRegistrations := 6, regularAttendees := 23 }

/-- Sixth mock record. -/
def mockMeetup6 : Meetup :=
  { id := 6, title := "Cloud Native Java", presenter := "Diana Prince",
    date := dateValue 2024 2 12 0,
    description := "Building cloud-native Java applications with containers, Kubernetes, and serverless technologies. Performance and scalability considerations.",
    totalAttendance := 47, newRegistrations := 13, regularAttendees := 34 }

/-- The mock dataset hard-coded in the component. -/
def mockMeetups : List Meetup :=
  [mockMeetup1, mockMeetup2, mockMeetup3, mockMeetup4, mockMeetup5, mockMeetup6]

/-- Rounding as used by `Math.round` on the (here exactly represented)
arithmetic: floor of the value plus one half. -/
def jsRound (q : ℚ) : ℤ :=
  ⌊q + 1 / 2⌋

/-- The pie-chart angle: `Math.round(((new / total) * 100 / 100) * 360)`,
with the division carried out in exact rational arithmetic. -/
def newAngle (newReg total : ℤ) : ℤ :=
  jsRound ((newReg : ℚ) / (total : ℚ) * 100 / 100 * 360)

/-- `getPieChartGradient(meetup)`: neutral full circle when attendance is
zero, otherwise a two-stop conic gradient split at the rounded angle. -/
def getPieChartGradient (m : Meetup) : String :=
  if m.totalAttendance = 0 then
    "conic-gradient(#e5e7eb 0deg 360deg)"
  else
    let a := newAngle m.newRegistrations m.totalAttendance
    "conic-gradient(#10b981 0deg " ++ toString a ++ "deg, #3b82f6 " ++ toString a ++ "deg 360deg)"

/-- Private attendance signals of `HomeComponent`. -/
structure HomeState where
  newRegistrations : ℤ
  returningMembers : ℤ
deriving DecidableEq, Repr

/-- Initial home state: 32 new registrations, 96 returning members. -/
def initHome : HomeState :=
  { newRegistrations := 32, returningMembers := 96 }

/-- `updateAttendanceData(n, r)`: stores `Math.max(0, n)` and `Math.max(0, r)`. -/
def updateAttendanceData (n r : ℤ) (_st : HomeState) : HomeState :=
  { newRegistrations := max 0 n, returningMembers := max 0 r }

/-- The `attendanceData` computed signal as the triple it exposes. -/
structure AttendanceData where
  newRegistrations : ℤ
  returningMembers : ℤ
  total : ℤ
deriving DecidableEq, Repr

/-- `attendanceData`: the two stored counts plus their sum as `total`. -/
def attendanceData (st : HomeState) : AttendanceData :=
  { newRegistrations := st.newRegistrations
    returningMembers := st.returningMembers
    total := st.newRegistrations + st.returningMembers }

/-- Angle used by the home pie chart (the non-empty branch of
`pieChartGradient`). -/
def homeNewAngle (st : HomeState) : ℤ :=
  newAngle (attendanceData st).newRegistrations (attendanceData st).total

/-- The `pieChartGradient` computed signal of `HomeComponent`. -/
def pieChartGradient (st : HomeState) : String :=
  if (attendanceData st).total = 0 then
    "conic-gradient(#e5e7eb 0deg 360deg)"
  else
    "conic-gradient(#10b981 0deg " ++ toString (homeNewAngle st) ++ "deg, #3b82f6 "
      ++ toString (homeNewAngle st) ++ "deg 360deg)"

/-- Apply a sequence of `updateAttendanceData` calls in order. -/
def runHome (calls : List (ℤ × ℤ)) (st : HomeState) : HomeState :=
  calls.foldl (fun s c => updateAttendanceData c.1 c.2 s) st

/-- Sample evaluation instant: 2024-06-15 at midnight. -/
def now0 : Now :=
  { year := 2024, month := 5, day := 15, msOfDay := 0 }

/-- Sample evaluation instant: 2024-06-15 at noon. -/
def nowNoon : Now :=
  { year := 2024, month := 5, day := 15, msOfDay := 43200000 }

/-- State reached from the mock dataset by going to page 2 and then selecting
the `high` attendance filter (which shrinks the filtered set to one record). -/
def shrunkHighState : PastMeetupsState :=
  runOps now0 [Op.goto 2, Op.setAttendance AttendanceFilterType.high] (initState mockMeetups)

/-- State reached from the mock dataset by going to page 2 and then selecting
the `low` attendance filter (which empties the filtered set). -/
def shrunkLowState : PastMeetupsState :=
  runOps now0 [Op.goto 2, Op.setAttendance AttendanceFilterType.low] (initState mockMeetups)

/-- Mock-dataset state with the `high` attendance filter selected. -/
def highFilterState : PastMeetupsState :=
  { initState mockMeetups with attendanceFilter := AttendanceFilterType.high }

/-- Mock-dataset state with search text `java`. -/
def javaSearchState : PastMeetupsState :=
  { initState mockMeetups with searchTerm := "java" }

/-- A record dated exactly January 1st (midnight) of 2024. -/
def janMeetup : Meetup :=
  { id := 100, title := "New Year Kickoff", presenter := "Ann Example",
    date := dateValue 2024 0 1 0,
    description := "First meetup of the year.",
    totalAttendance := 10, newRegistrations := 1, regularAttendees := 9 }

/-- Single-record state with the `thisYear` date filter selected. -/
def janThisYearState : PastMeetupsState :=
  { initState [janMeetup] with dateFilter := DateFilterType.thisYear }

/-- The cutoff the specification describes for `thisYear`: January 1st of the
current year, i.e. midnight of that day. Modelled from the spec sentence
for comparison with the cutoff the code computes. -/
def specThisYearCutoff (now : Now) : ℤ :=
  dateValue now.year 0 1 0

theorem jsToLower_empty : jsToLower "" = "" := rfl

theorem jsToLower_eq_empty_iff (s : String) : jsToLower s = "" ↔ s = "" := by
  rw [String.ext_iff, String.ext_iff]
  show s.data.map Char.toLower = ("" : String).data ↔ s.data = ("" : String).data
  show s.data.map Char.toLower = [] ↔ s.data = []
  exact List.map_eq_nil_iff

theorem leadMatch_iff (n : List Char) :
    ∀ h : List Char, leadMatch n h = true ↔ ∃ t, h = n ++ t := by
  induction n with
  | nil =>
    intro h
    simp [leadMatch]
  | cons a as ih =>
    intro h
    cases h with
    | nil =>
      simp [leadMatch]
    | cons b bs =>
      simp only [leadMatch, Bool.and_eq_true, beq_iff_eq, ih bs, List.cons_append]
      constructor
      · rintro ⟨hab, t, ht⟩
        exact ⟨t, by rw [ht, hab]⟩
      · rintro ⟨t, ht⟩
        rw [List.cons.injEq] at ht
        exact ⟨ht.1.symm, t, ht.2⟩

theorem occursIn_iff (n : List Char) :
    ∀ h : List Char, occursIn n h = true ↔ ∃ pre post, h = pre ++ n ++ post := by
  intro h
  induction h with
  | nil =>
    simp only [occursIn, List.isEmpty_iff]
    constructor
    · intro h0
      exact ⟨[], [], by rw [h0]; rfl⟩
    · rintro ⟨pre, post, hp⟩
      rw [List.append_assoc] at hp
      rw [eq_comm, List.append_eq_nil] at hp
      rw [List.append_eq_nil] at hp
      exact hp.2.1
  | cons b t ih =>
    simp only [occursIn, Bool.or_eq_true, ih, leadMatch_iff]
    constructor
    · rintro (⟨tt, htt⟩ | ⟨pre, post, hp⟩)
      · exact ⟨[], tt, by rw [htt]; rfl⟩
      · exact ⟨b :: pre, post, by rw [List.cons_append, List.cons_append, ← hp]⟩
    · rintro ⟨pre, post, hp⟩
      cases pre with
      | nil =>
        left
        exact ⟨post, by rw [hp]; rfl⟩
      | cons pb pt =>
        right
        rw [List.cons_append, List.cons_append, List.cons.injEq] at hp
        exact ⟨pt, post, hp.2⟩

theorem jsIncludes_iff (s sub : String) :
    jsIncludes s sub = true ↔ ∃ pre post, s.data = pre ++ sub.data ++ post :=
  occursIn_iff sub.data s.data


theorem mem_ite_filter {α : Type} {c : Prop} [Decidable c] {p : α → Bool}
    {l : List α} {x : α} :
    (x ∈ if c then l.filter p else l) ↔ x ∈ l ∧ (c → p x = true) := by
  split
  · next hc =>
    rw [List.mem_filter]
    exact ⟨fun h => ⟨h.1, fun _ => h.2⟩, fun h => ⟨h.1, h.2 hc⟩⟩
  · next hc =>
    exact ⟨fun h => ⟨h, fun hcc => absurd hcc hc⟩, fun h => h.1⟩

theorem ite_filter_sublist {α : Type} (c : Prop) [Decidable c] (p : α → Bool)
    (l : List α) : (if c then l.filter p else l).Sublist l := by
  split
  · exact List.filter_sublist l
  · exact List.Sublist.refl l

theorem filteredMeetups_sublist (now : Now) (st : PastMeetupsState) :
    (filteredMeetups now st).Sublist st.meetups := by
  simp only [filteredMeetups]
  exact (ite_filter_sublist _ _ _).trans ((ite_filter_sublist _ _ _).trans
    (ite_filter_sublist _ _ _))

theorem mem_filteredMeetups (now : Now) (st : PastMeetupsState) (m : Meetup) :
    m ∈ filteredMeetups now st ↔
      m ∈ st.meetups
      ∧ (jsToLower st.searchTerm ≠ "" →
          (jsIncludes (jsToLower m.title) (jsToLower st.searchTerm)
            || jsIncludes (jsToLower m.presenter) (jsToLower st.searchTerm)) = true)
      ∧ (st.dateFilter ≠ DateFilterType.all →
          filterDateCutoff now st.dateFilter ≤ m.date)
      ∧ (st.attendanceFilter ≠ AttendanceFilterType.all →
          (match st.attendanceFilter with
            | AttendanceFilterType.low => decide (m.totalAttendance < 20)
            | AttendanceFilterType.medium =>
                decide (20 ≤ m.totalAttendance) && decide (m.totalAttendance ≤ 50)
            | AttendanceFilterType.high => decide (50 < m.totalAttendance)
            | AttendanceFilterType.all => true) = true) := by
  simp only [filteredMeetups]
  rw [mem_ite_filter, mem_ite_filter, mem_ite_filter]
  simp only [decide_eq_true_eq]
  tauto

theorem chunksFlatten {α : Type} (ipp : ℕ) (hipp : 1 ≤ ipp) :
    ∀ (k : ℕ) (l : List α), l.length ≤ k →
      ((List.range ((l.length + ipp - 1) / ipp)).map
        (fun i => (l.drop (i * ipp)).take ipp)).flatten = l := by
  intro k
  induction k with
  | zero =>
    intro l hl
    have hnil : l = [] := List.length_eq_zero.mp (Nat.le_zero.mp hl)
    subst hnil
    have h0 : (([] : List α).length + ipp - 1) / ipp = 0 :=
      Nat.div_eq_of_lt (by simp; omega)
    rw [h0]
    rfl
  | succ k ih =>
    intro l hl
    rcases Nat.eq_zero_or_pos l.length with hlen | hlen
    · have hnil : l = [] := List.length_eq_zero.mp hlen
      subst hnil
      have h0 : (([] : List α).length + ipp - 1) / ipp = 0 :=
        Nat.div_eq_of_lt (by simp; omega)
      rw [h0]
      rfl
    · have hstep : (l.length + ipp - 1) / ipp
          = (((l.drop ipp).length + ipp - 1) / ipp) + 1 := by
        rw [List.length_drop]
        rcases Nat.le_total l.length ipp with hle | hge
        · have h1 : l.length - ipp = 0 := by omega
          rw [h1]
          have h2 : (0 + ipp - 1) / ipp = 0 := Nat.div_eq_of_lt (by omega)
          rw [h2]
          have h3 : l.length + ipp - 1 = (l.length - 1) + ipp := by omega
          rw [h3, Nat.add_div_right _ (by omega)]
          have h4 : (l.length - 1) / ipp = 0 := Nat.div_eq_of_lt (by omega)
          omega
        · have h3 : l.length + ipp - 1 = ((l.length - ipp) + ipp - 1) + ipp := by
            omega
          rw [h3, Nat.add_div_right _ (by omega)]
      rw [hstep, List.range_succ_eq_map, List.map_cons, List.flatten_cons,
        List.map_map]
      have hmapeq :
          (List.range (((l.drop ipp).length + ipp - 1) / ipp)).map
            ((fun i => (l.drop (i * ipp)).take ipp) ∘ Nat.succ)
          = (List.range (((l.drop ipp).length + ipp - 1) / ipp)).map
            (fun i => ((l.drop ipp).drop (i * ipp)).take ipp) := by
        apply List.map_congr_left
        intro i _
        simp only [Function.comp_apply]
        rw [List.drop_drop]
        have harith : Nat.succ i * ipp = ipp + i * ipp := by
          rw [Nat.succ_mul, Nat.add_comm]
        rw [harith]
      rw [hmapeq, ih (l.drop ipp) (by rw [List.length_drop]; omega)]
      simp only [Nat.zero_mul, List.drop_zero]
      exact List.take_append_drop ipp l

theorem ceilDiv_cast (a b : ℕ) (hb : 1 ≤ b) :
    (((a + b - 1) / b : ℕ) : ℤ) = ⌈(a : ℚ) / (b : ℚ)⌉ := by
  have hb0 : (0 : ℚ) < (b : ℚ) := by exact_mod_cast hb
  have hbn : 0 < b := hb
  have h1 : (a + b - 1) / b * b ≤ a + b - 1 := Nat.div_mul_le_self _ _
  have h2 : a + b - 1 < (a + b - 1) / b * b + b := by
    have hd := Nat.div_add_mod (a + b - 1) b
    have hm := Nat.mod_lt (a + b - 1) hbn
    have hcomm : b * ((a + b - 1) / b) = (a + b - 1) / b * b := Nat.mul_comm _ _
    omega
  have ha1 : a ≤ (a + b - 1) / b * b := by omega
  have ha2 : (a + b - 1) / b * b < a + b := by omega
  have ha1q : (a : ℚ) ≤ (((a + b - 1) / b : ℕ) : ℚ) * (b : ℚ) := by exact_mod_cast ha1
  have ha2q : (((a + b - 1) / b : ℕ) : ℚ) * (b : ℚ) < (a : ℚ) + (b : ℚ) := by
    exact_mod_cast ha2
  have hcast : ((((a + b - 1) / b : ℕ) : ℤ) : ℚ) = (((a + b - 1) / b : ℕ) : ℚ) := by
    exact_mod_cast rfl
  symm
  rw [Int.ceil_eq_iff, hcast]
  constructor
  · rw [lt_div_iff₀ hb0]
    nlinarith
  · rw [div_le_iff₀ hb0]
    exact ha1q

theorem currentPage_pos_applyOp (now : Now) (o : Op) (st : PastMeetupsState)
    (h : 1 ≤ st.currentPage) : 1 ≤ (applyOp now o st).currentPage := by
  cases o with
  | setSearch s => exact h
  | setDate f => exact h
  | setAttendance a => exact h
  | setItemsPerPage n => exact h
  | goto n =>
    simp only [applyOp, goToPage]
    split
    · next hcond => exact hcond.1
    · exact h
  | next =>
    simp only [applyOp, nextPage]
    split
    · exact Nat.le_succ_of_le h
    · exact h
  | prev =>
    simp only [applyOp, previousPage]
    split
    · next hc =>
      show 1 ≤ st.currentPage - 1
      omega
    · exact h

theorem currentPage_pos_runOps (now : Now) (ops : List Op) :
    ∀ st : PastMeetupsState, 1 ≤ st.currentPage →
      1 ≤ (runOps now ops st).currentPage := by
  induction ops with
  | nil => exact fun st h => h
  | cons o rest ih =>
    intro st h
    exact ih (applyOp now o st) (currentPage_pos_applyOp now o st h)

theorem reachable_currentPage_pos (now : Now) (st : PastMeetupsState)
    (h : Reachable now st) : 1 ≤ st.currentPage := by
  obtain ⟨ms, ops, rfl⟩ := h
  exact currentPage_pos_runOps now ops (initState ms) (le_refl 1)

theorem newAngle_eq_direct (n t : ℤ) :
    newAngle n t = jsRound ((n : ℚ) / (t : ℚ) * 360) := by
  unfold newAngle
  congr 1
  ring

theorem newAngle_bounds (n t : ℤ) (h0 : 0 ≤ n) (h1 : n ≤ t) :
    0 ≤ newAngle n t ∧ newAngle n t ≤ 360 := by
  rw [newAngle_eq_direct]
  rcases eq_or_lt_of_le (le_trans h0 h1) with ht | ht
  · have hn : n = 0 := by omega
    subst hn
    rw [← ht]
    unfold jsRound
    norm_num
  · have ht0 : (0 : ℚ) < (t : ℚ) := by exact_mod_cast ht
    have hq0 : (0 : ℚ) ≤ (n : ℚ) / (t : ℚ) := by
      apply div_nonneg
      · exact_mod_cast h0
      · exact le_of_lt ht0
    have hq1 : (n : ℚ) / (t : ℚ) ≤ 1 := by
      rw [div_le_one ht0]
      exact_mod_cast h1
    unfold jsRound
    constructor
    · rw [Int.floor_nonneg]
      nlinarith
    · have hle : (n : ℚ) / (t : ℚ) * 360 + 1 / 2 ≤ (721 : ℚ) / 2 := by
        nlinarith
      have h721 : (⌊(721 : ℚ) / 2⌋ : ℤ) = 360 := by norm_num
      calc ⌊(n : ℚ) / (t : ℚ) * 360 + 1 / 2⌋ ≤ ⌊(721 : ℚ) / 2⌋ :=
            Int.floor_le_floor hle
        _ = 360 := h721

theorem homeState_nonneg (calls : List (ℤ × ℤ)) :
    ∀ st : HomeState, 0 ≤ st.newRegistrations → 0 ≤ st.returningMembers →
      0 ≤ (runHome calls st).newRegistrations
      ∧ 0 ≤ (runHome calls st).returningMembers := by
  induction calls with
  | nil => exact fun st h1 h2 => ⟨h1, h2⟩
  | cons c rest ih =>
    intro st h1 h2
    exact ih (updateAttendanceData c.1 c.2 st) (le_max_left 0 c.1) (le_max_left 0 c.2)

theorem filteredMeetups_set_currentPage (now : Now) (st : PastMeetupsState) (n : ℕ) :
    filteredMeetups now { st with currentPage := n } = filteredMeetups now st := rfl

theorem paginatedMeetups_set_currentPage (now : Now) (st : PastMeetupsState) (n : ℕ) :
    paginatedMeetups now { st with currentPage := n }
      = ((filteredMeetups now st).drop ((n - 1) * st.itemsPerPage)).take st.itemsPerPage :=
  rfl

/-- C1 counterexample: from the mock dataset, go to page 2 (`totalPages = 2`),
then select the `high` attendance filter, shrinking the filtered set to one
record so that `totalPages = 1`. The code leaves `currentPage = 2`, violating
the claimed invariant `currentPage ≤ max 1 totalPages`, and does not clamp it
to `min currentPage (max 1 totalPages) = 1`. -/
theorem c1_counterexample :
    shrunkHighState.currentPage = 2
    ∧ totalPages now0 shrunkHighState = 1
    ∧ ¬ (shrunkHighState.currentPage ≤ max 1 (totalPages now0 shrunkHighState))
    ∧ shrunkHighState.currentPage
        ≠ min shrunkHighState.currentPage (max 1 (totalPages now0 shrunkHighState)) := by
  decide

/-- C1 (amended): after any sequence of setter and navigation calls from the
initial state, the lower bound `1 ≤ currentPage` holds; the search, date,
attendance and page-size setters leave `currentPage` unchanged — the engine
performs no clamping after a recompute, so the upper bound
`currentPage ≤ max 1 totalPages` can be violated when a filter change shrinks
the filtered set. -/
theorem c1_amended_lower_bound_no_clamp :
    (∀ (now : Now) (ms : List Meetup) (ops : List Op),
      1 ≤ (runOps now ops (initState ms)).currentPage)
    ∧ (∀ (now : Now) (st : PastMeetupsState) (s : String) (f : DateFilterType)
        (a : AttendanceFilterType) (n : ℕ),
        (applyOp now (Op.setSearch s) st).currentPage = st.currentPage
        ∧ (applyOp now (Op.setDate f) st).currentPage = st.currentPage
        ∧ (applyOp now (Op.setAttendance a) st).currentPage = st.currentPage
        ∧ (applyOp now (Op.setItemsPerPage n) st).currentPage = st.currentPage) :=
  ⟨fun now ms ops => currentPage_pos_runOps now ops (initState ms) (le_refl 1),
   fun _ _ _ _ _ _ => ⟨rfl, rfl, rfl, rfl⟩⟩

/-- C3 counterexample: in the reachable state obtained by going to page 2 and
then selecting the `low` attendance filter (empty filtered set, so
`totalPages = 0`), `previousPage()` does change `currentPage` (from 2 to 1)
even though the destination 1 does not lie in `[1, totalPages] = [1, 0]`,
refuting the claim that `previousPage` changes `currentPage` only when the
destination lies in `[1, totalPages]`. -/
theorem c3_counterexample :
    totalPages now0 shrunkLowState = 0
    ∧ shrunkLowState.currentPage = 2
    ∧ (previousPage shrunkLowState).currentPage ≠ shrunkLowState.currentPage
    ∧ ¬ (1 ≤ (previousPage shrunkLowState).currentPage
          ∧ (previousPage shrunkLowState).currentPage ≤ totalPages now0 shrunkLowState) := by
  decide

/-- C3 (amended): `goToPage(n)` sets `currentPage = n` when
`1 ≤ n ≤ totalPages` and otherwise leaves the state unchanged (a silent no-op,
never an error); `nextPage()` changes `currentPage` by +1 exactly when the
destination `currentPage + 1` lies in `[1, totalPages]`; `previousPage()`
changes `currentPage` by -1 exactly when `currentPage > 1` — it checks only
the lower bound, which coincides with the destination lying in
`[1, totalPages]` whenever `currentPage ≤ totalPages`. -/
theorem c3_amended_navigation (now : Now) (st : PastMeetupsState) (n : ℕ) :
    ((1 ≤ n ∧ n ≤ totalPages now st) → goToPage now n st = { st with currentPage := n })
    ∧ (¬ (1 ≤ n ∧ n ≤ totalPages now st) → goToPage now n st = st)
    ∧ ((1 ≤ st.currentPage + 1 ∧ st.currentPage + 1 ≤ totalPages now st) ↔
        (nextPage now st).currentPage = st.currentPage + 1)
    ∧ (¬ st.currentPage < totalPages now st → nextPage now st = st)
    ∧ (1 < st.currentPage → previousPage st = { st with currentPage := st.currentPage - 1 })
    ∧ (¬ 1 < st.currentPage → previousPage st = st)
    ∧ (st.currentPage ≤ totalPages now st → 1 < st.currentPage →
        1 ≤ st.currentPage - 1 ∧ st.currentPage - 1 ≤ totalPages now st) := by
  refine ⟨?_, ?_, ?_, ?_, ?_, ?_, ?_⟩
  · intro h
    simp only [goToPage, if_pos h]
  · intro h
    simp only [goToPage, if_neg h]
  · constructor
    · intro h
      have hc : st.currentPage < totalPages now st := by omega
      simp only [nextPage, if_pos hc]
    · intro h
      by_cases hc : st.currentPage < totalPages now st
      · exact ⟨Nat.le_add_left 1 _, by omega⟩
      · exfalso
        simp only [nextPage, if_neg hc] at h
        omega
  · intro h
    simp only [nextPage, if_neg h]
  · intro h
    simp only [previousPage, if_pos h]
  · intro h
    simp only [previousPage, if_neg h]
  · intro h1 h2
    omega

/-- C3 witness: Scenario E — with the mock dataset (`totalPages = 2`),
`goToPage(99)` is a no-op. -/
theorem c3_amended_navigation_witness :
    ¬ (1 ≤ 99 ∧ 99 ≤ totalPages now0 (initState mockMeetups))
    ∧ goToPage now0 99 (initState mockMeetups) = initState mockMeetups :=
  ⟨by decide, (c3_amended_navigation now0 (initState mockMeetups) 99).2.1 (by decide)⟩

/-- C4: for every state with `itemsPerPage ≥ 1`,
`totalPages = ceil(filteredRecords.length / itemsPerPage)`, which is 0 for an
empty filtered set (not clamped to 1); Scenario B — with `itemsPerPage = 5`
and 6 filtered records, `totalPages = 2` and page 2 holds exactly 1 record. -/
theorem c4_totalPages_ceil :
    (∀ (now : Now) (st : PastMeetupsState), 1 ≤ st.itemsPerPage →
      ((totalPages now st : ℤ)
          = ⌈((filteredMeetups now st).length : ℚ) / (st.itemsPerPage : ℚ)⌉
        ∧ (filteredMeetups now st = [] → totalPages now st = 0)))
    ∧ totalPages now0 (initState mockMeetups) = 2
    ∧ (paginatedMeetups now0 (goToPage now0 2 (initState mockMeetups))).length = 1 := by
  refine ⟨?_, by decide, by decide⟩
  intro now st h
  constructor
  · exact ceilDiv_cast _ _ h
  · intro he
    simp only [totalPages, he, List.length_nil, Nat.zero_add]
    exact Nat.div_eq_of_lt (by omega)

/-- C4 witness: the general part of `c4_totalPages_ceil` instantiated on the
mock dataset with `itemsPerPage = 5`. -/
theorem c4_totalPages_ceil_witness :
    1 ≤ (initState mockMeetups).itemsPerPage
    ∧ ((totalPages now0 (initState mockMeetups) : ℤ)
        = ⌈((filteredMeetups now0 (initState mockMeetups)).length : ℚ)
            / ((initState mockMeetups).itemsPerPage : ℚ)⌉
      ∧ (filteredMeetups now0 (initState mockMeetups) = []
          → totalPages now0 (initState mockMeetups) = 0)) :=
  ⟨by decide, c4_totalPages_ceil.1 now0 (initState mockMeetups) (by decide)⟩

/-- C9: for every reachable state — including states where `currentPage`
exceeds `totalPages` after a filter shrank the filtered set — reading the
current page slice is total: `currentPage ≥ 1`, the slice never holds more
than `itemsPerPage` records, and it is empty whenever
`(currentPage - 1) * itemsPerPage ≥ filteredRecords.length`. -/
theorem c9_page_slice_safe (now : Now) (st : PastMeetupsState)
    (h : Reachable now st) :
    1 ≤ st.currentPage
    ∧ (paginatedMeetups now st).length ≤ st.itemsPerPage
    ∧ ((filteredMeetups now st).length ≤ (st.currentPage - 1) * st.itemsPerPage →
        paginatedMeetups now st = []) := by
  refine ⟨reachable_currentPage_pos now st h, ?_, ?_⟩
  · show (((filteredMeetups now st).drop (startIndex st)).take st.itemsPerPage).length
        ≤ st.itemsPerPage
    rw [List.length_take]
    exact min_le_left _ _
  · intro hle
    show ((filteredMeetups now st).drop
        ((st.currentPage - 1) * st.itemsPerPage)).take st.itemsPerPage = []
    rw [List.drop_eq_nil_of_le hle]
    exact List.take_nil

/-- C9 witness: instantiated on the reachable state where the `low` filter
emptied the filtered set while `currentPage = 2`. -/
theorem c9_page_slice_safe_witness :
    Reachable now0 shrunkLowState
    ∧ (filteredMeetups now0 shrunkLowState).length
        ≤ (shrunkLowState.currentPage - 1) * shrunkLowState.itemsPerPage
    ∧ paginatedMeetups now0 shrunkLowState = [] :=
  ⟨⟨mockMeetups, [Op.goto 2, Op.setAttendance AttendanceFilterType.low], rfl⟩,
   by decide,
   (c9_page_slice_safe now0 shrunkLowState
      ⟨mockMeetups, [Op.goto 2, Op.setAttendance AttendanceFilterType.low], rfl⟩).2.2
     (by decide)⟩

/-- C2: page coverage — for every dataset, filter configuration and
`itemsPerPage ≥ 1`, concatenating `currentPageRecords` over
`goToPage(1) .. goToPage(totalPages)` reproduces `filteredRecords` exactly,
with no duplicates or omissions and in order. -/
theorem c2_page_coverage (now : Now) (st : PastMeetupsState)
    (hipp : 1 ≤ st.itemsPerPage) :
    ((List.range (totalPages now st)).map
      (fun i => paginatedMeetups now (goToPage now (i + 1) st))).flatten
      = filteredMeetups now st := by
  have hmap : ∀ i ∈ List.range (totalPages now st),
      paginatedMeetups now (goToPage now (i + 1) st)
        = ((filteredMeetups now st).drop (i * st.itemsPerPage)).take st.itemsPerPage := by
    intro i hi
    have hi2 : i < totalPages now st := List.mem_range.mp hi
    have hg : goToPage now (i + 1) st = { st with currentPage := i + 1 } := by
      simp only [goToPage]
      rw [if_pos ⟨Nat.le_add_left 1 i, by omega⟩]
    rw [hg, paginatedMeetups_set_currentPage, Nat.add_sub_cancel]
  rw [List.map_congr_left hmap]
  exact chunksFlatten st.itemsPerPage hipp (filteredMeetups now st).length
    (filteredMeetups now st) (le_refl _)

/-- C2 witness: page coverage instantiated on the mock dataset with its two
pages of five and one records. -/
theorem c2_page_coverage_witness :
    1 ≤ (initState mockMeetups).itemsPerPage
    ∧ ((List.range (totalPages now0 (initState mockMeetups))).map
        (fun i => paginatedMeetups now0 (goToPage now0 (i + 1) (initState mockMeetups)))).flatten
      = filteredMeetups now0 (initState mockMeetups) :=
  ⟨by decide, c2_page_coverage now0 (initState mockMeetups) (by decide)⟩

/-- C5 counterexample: with `now` = 2024-06-15 at noon, a record dated exactly
January 1st of the current year (midnight) satisfies the claimed inclusive
cutoff — its date equals January 1st of the current year — yet the code
excludes it: `setFullYear(year, 0, 1)` keeps the current time of day, so the
actual cutoff is January 1st at noon, strictly later than the record. -/
theorem c5_counterexample :
    janMeetup.date = specThisYearCutoff nowNoon
    ∧ specThisYearCutoff nowNoon ≤ janMeetup.date
    ∧ janMeetup ∈ janThisYearState.meetups
    ∧ janThisYearState.dateFilter = DateFilterType.thisYear
    ∧ filteredMeetups nowNoon janThisYearState = []
    ∧ filterDateCutoff nowNoon DateFilterType.thisYear
        = specThisYearCutoff nowNoon + nowNoon.msOfDay := by
  decide

/-- C5 (amended): when the date filter is active (search empty, attendance
filter `all`), a record is kept iff `record.date ≥ cutoff` (inclusive), where
the cutoffs for `lastMonth`/`last3Months`/`last6Months` keep the current day
of month and time of day with the month decremented by 1/3/6 (normalized), and
the cutoff for `thisYear` is January 1st of the current year at the current
time of day (not midnight). -/
theorem c5_amended_date_filter (now : Now) (st : PastMeetupsState) (m : Meetup)
    (hs : st.searchTerm = "") (ha : st.attendanceFilter = AttendanceFilterType.all)
    (hd : st.dateFilter ≠ DateFilterType.all) :
    (m ∈ filteredMeetups now st ↔
      m ∈ st.meetups ∧ filterDateCutoff now st.dateFilter ≤ m.date)
    ∧ filterDateCutoff now DateFilterType.thisYear = dateValue now.year 0 1 now.msOfDay
    ∧ filterDateCutoff now DateFilterType.lastMonth
        = dateValue now.year (now.month - 1) now.day now.msOfDay
    ∧ filterDateCutoff now DateFilterType.last3Months
        = dateValue now.year (now.month - 3) now.day now.msOfDay
    ∧ filterDateCutoff now DateFilterType.last6Months
        = dateValue now.year (now.month - 6) now.day now.msOfDay := by
  refine ⟨?_, rfl, rfl, rfl, rfl⟩
  rw [mem_filteredMeetups]
  have h1 : ¬ (jsToLower st.searchTerm ≠ "") := by
    rw [hs, jsToLower_empty]
    exact fun hcc => hcc rfl
  have h3 : ¬ (st.attendanceFilter ≠ AttendanceFilterType.all) := by
    rw [ha]
    exact fun hcc => hcc rfl
  constructor
  · rintro ⟨hm, _, hdate, _⟩
    exact ⟨hm, hdate hd⟩
  · rintro ⟨hm, hdate⟩
    exact ⟨hm, fun hc => absurd hc h1, fun _ => hdate, fun hc => absurd hc h3⟩

/-- C5 witness: the amended date-filter characterization instantiated on a
single-record state with the `thisYear` filter. -/
theorem c5_amended_date_filter_witness :
    janThisYearState.searchTerm = ""
    ∧ janThisYearState.attendanceFilter = AttendanceFilterType.all
    ∧ janThisYearState.dateFilter ≠ DateFilterType.all
    ∧ (janMeetup ∈ filteredMeetups nowNoon janThisYearState ↔
        janMeetup ∈ janThisYearState.meetups
        ∧ filterDateCutoff nowNoon janThisYearState.dateFilter ≤ janMeetup.date) :=
  ⟨rfl, rfl, by decide,
   (c5_amended_date_filter nowNoon janThisYearState janMeetup rfl rfl (by decide)).1⟩

/-- C6: with search empty and the date filter off, an active attendance filter
keeps a record exactly when `totalAttendance` lies in the selected bucket —
`low` iff `< 20`, `medium` iff `20 ≤ · ≤ 50`, `high` iff `> 50`; Scenario A —
on the six mock records with attendance `[45,38,52,41,29,47]`, filter `high`
yields exactly the one record with 52. -/
theorem c6_attendance_filter :
    (∀ (now : Now) (st : PastMeetupsState) (m : Meetup),
      st.searchTerm = "" → st.dateFilter = DateFilterType.all →
      ((st.attendanceFilter = AttendanceFilterType.low →
          (m ∈ filteredMeetups now st ↔ m ∈ st.meetups ∧ m.totalAttendance < 20))
        ∧ (st.attendanceFilter = AttendanceFilterType.medium →
          (m ∈ filteredMeetups now st ↔
            m ∈ st.meetups ∧ 20 ≤ m.totalAttendance ∧ m.totalAttendance ≤ 50))
        ∧ (st.attendanceFilter = AttendanceFilterType.high →
          (m ∈ filteredMeetups now st ↔ m ∈ st.meetups ∧ 50 < m.totalAttendance))))
    ∧ filteredMeetups now0 highFilterState = [mockMeetup3]
    ∧ mockMeetup3.totalAttendance = 52 := by
  refine ⟨?_, by decide, by decide⟩
  intro now st m hs hd
  have h1 : ¬ (jsToLower st.searchTerm ≠ "") := by
    rw [hs, jsToLower_empty]
    exact fun hcc => hcc rfl
  have h2 : ¬ (st.dateFilter ≠ DateFilterType.all) := by
    rw [hd]
    exact fun hcc => hcc rfl
  refine ⟨?_, ?_, ?_⟩
  · intro hatt
    rw [mem_filteredMeetups, hatt]
    simp only [Bool.and_eq_true, decide_eq_true_eq]
    constructor
    · rintro ⟨hm, _, _, hb⟩
      exact ⟨hm, hb (by decide)⟩
    · rintro ⟨hm, hb⟩
      exact ⟨hm, fun hc => absurd hc h1, fun hc => absurd hc h2, fun _ => hb⟩
  · intro hatt
    rw [mem_filteredMeetups, hatt]
    simp only [Bool.and_eq_true, decide_eq_true_eq]
    constructor
    · rintro ⟨hm, _, _, hb⟩
      exact ⟨hm, hb (by decide)⟩
    · rintro ⟨hm, hb⟩
      exact ⟨hm, fun hc => absurd hc h1, fun hc => absurd hc h2, fun _ => hb⟩
  · intro hatt
    rw [mem_filteredMeetups, hatt]
    simp only [Bool.and_eq_true, decide_eq_true_eq]
    constructor
    · rintro ⟨hm, _, _, hb⟩
      exact ⟨hm, hb (by decide)⟩
    · rintro ⟨hm, hb⟩
      exact ⟨hm, fun hc => absurd hc h1, fun hc => absurd hc h2, fun _ => hb⟩

/-- C6 witness: the `high` bucket characterization instantiated on the mock
dataset and its third record. -/
theorem c6_attendance_filter_witness :
    highFilterState.searchTerm = ""
    ∧ highFilterState.dateFilter = DateFilterType.all
    ∧ highFilterState.attendanceFilter = AttendanceFilterType.high
    ∧ (mockMeetup3 ∈ filteredMeetups now0 highFilterState ↔
        mockMeetup3 ∈ highFilterState.meetups ∧ 50 < mockMeetup3.totalAttendance) :=
  ⟨rfl, rfl, rfl,
   (c6_attendance_filter.1 now0 highFilterState mockMeetup3 rfl rfl).2.2 rfl⟩

/-- C7: with the date and attendance filters off, an empty search text
disables the search predicate (every record passes), and a non-empty search
text keeps a record exactly when the lowercased title or the lowercased
presenter contains the lowercased search text as a contiguous substring;
the filtered list is a sublist of the input, so input order is preserved. -/
theorem c7_search_filter (now : Now) (st : PastMeetupsState) (m : Meetup)
    (hd : st.dateFilter = DateFilterType.all)
    (ha : st.attendanceFilter = AttendanceFilterType.all) :
    (st.searchTerm = "" → filteredMeetups now st = st.meetups)
    ∧ (st.searchTerm ≠ "" →
        (m ∈ filteredMeetups now st ↔
          m ∈ st.meetups
          ∧ ((∃ pre post, (jsToLower m.title).data
                = pre ++ (jsToLower st.searchTerm).data ++ post)
            ∨ (∃ pre post, (jsToLower m.presenter).data
                = pre ++ (jsToLower st.searchTerm).data ++ post))))
    ∧ (filteredMeetups now st).Sublist st.meetups := by
  have h2 : ¬ (st.dateFilter ≠ DateFilterType.all) := by
    rw [hd]
    exact fun hcc => hcc rfl
  have h3 : ¬ (st.attendanceFilter ≠ AttendanceFilterType.all) := by
    rw [ha]
    exact fun hcc => hcc rfl
  refine ⟨?_, ?_, filteredMeetups_sublist now st⟩
  · intro hs
    have h1 : ¬ (jsToLower st.searchTerm ≠ "") := by
      rw [hs, jsToLower_empty]
      exact fun hcc => hcc rfl
    simp only [filteredMeetups]
    rw [if_neg h3, if_neg h2, if_neg h1]
  · intro hs
    have h1 : jsToLower st.searchTerm ≠ "" := by
      rw [Ne, jsToLower_eq_empty_iff]
      exact hs
    rw [mem_filteredMeetups]
    simp only [Bool.or_eq_true, jsIncludes_iff]
    constructor
    · rintro ⟨hm, hsearch, _, _⟩
      exact ⟨hm, hsearch h1⟩
    · rintro ⟨hm, hmatch⟩
      exact ⟨hm, fun _ => hmatch, fun hc => absurd hc h2, fun hc => absurd hc h3⟩

/-- C7 witness: the search characterization instantiated at search text
`java` over the mock dataset and its first record (Scenario C). -/
theorem c7_search_filter_witness :
    javaSearchState.dateFilter = DateFilterType.all
    ∧ javaSearchState.attendanceFilter = AttendanceFilterType.all
    ∧ javaSearchState.searchTerm ≠ ""
    ∧ (mockMeetup1 ∈ filteredMeetups now0 javaSearchState ↔
        mockMeetup1 ∈ javaSearchState.meetups
        ∧ ((∃ pre post, (jsToLower mockMeetup1.title).data
              = pre ++ (jsToLower javaSearchState.searchTerm).data ++ post)
          ∨ (∃ pre post, (jsToLower mockMeetup1.presenter).data
              = pre ++ (jsToLower javaSearchState.searchTerm).data ++ post))) :=
  ⟨rfl, rfl, by decide,
   (c7_search_filter now0 javaSearchState mockMeetup1 rfl rfl).2.1 (by decide)⟩

/-- C8: `getPieChartGradient` returns the neutral full-circle descriptor when
`totalAttendance = 0`, and otherwise a two-segment conic gradient split at
`newAngleDegrees = round((newRegistrations / totalAttendance) * 360)` whose
two spans `[0, a)` and `[a, 360)` sum to 360; Scenario D — for a 32/128 split
the angle is 90. -/
theorem c8_gradient :
    (∀ m : Meetup,
      (m.totalAttendance = 0 →
        getPieChartGradient m = "conic-gradient(#e5e7eb 0deg 360deg)")
      ∧ (m.totalAttendance ≠ 0 →
        getPieChartGradient m
            = "conic-gradient(#10b981 0deg "
              ++ toString (newAngle m.newRegistrations m.totalAttendance)
              ++ "deg, #3b82f6 "
              ++ toString (newAngle m.newRegistrations m.totalAttendance)
              ++ "deg 360deg)"
        ∧ newAngle m.newRegistrations m.totalAttendance
            = jsRound ((m.newRegistrations : ℚ) / (m.totalAttendance : ℚ) * 360)
        ∧ (newAngle m.newRegistrations m.totalAttendance - 0)
            + (360 - newAngle m.newRegistrations m.totalAttendance) = 360))
    ∧ newAngle 32 128 = 90 := by
  constructor
  · intro m
    constructor
    · intro h0
      simp only [getPieChartGradient, if_pos h0]
    · intro h0
      refine ⟨?_, newAngle_eq_direct _ _, by ring⟩
      simp only [getPieChartGradient, if_neg h0]
  · rw [newAngle_eq_direct]
    unfold jsRound
    have h : ((32 : ℤ) : ℚ) / ((128 : ℤ) : ℚ) * 360 + 1 / 2 = (181 : ℚ) / 2 := by
      norm_num
    rw [h]
    norm_num

/-- C8 witness: the non-empty branch instantiated on the first mock record
(45 attendees, 12 new). -/
theorem c8_gradient_witness :
    mockMeetup1.totalAttendance ≠ 0
    ∧ (getPieChartGradient mockMeetup1
        = "conic-gradient(#10b981 0deg "
          ++ toString (newAngle mockMeetup1.newRegistrations mockMeetup1.totalAttendance)
          ++ "deg, #3b82f6 "
          ++ toString (newAngle mockMeetup1.newRegistrations mockMeetup1.totalAttendance)
          ++ "deg 360deg)"
      ∧ newAngle mockMeetup1.newRegistrations mockMeetup1.totalAttendance
          = jsRound ((mockMeetup1.newRegistrations : ℚ) / (mockMeetup1.totalAttendance : ℚ) * 360)
      ∧ (newAngle mockMeetup1.newRegistrations mockMeetup1.totalAttendance - 0)
          + (360 - newAngle mockMeetup1.newRegistrations mockMeetup1.totalAttendance) = 360) :=
  ⟨by decide, (c8_gradient.1 mockMeetup1).2 (by decide)⟩

/-- C10: after any sequence of `updateAttendanceData` calls (negative
arguments are clamped to 0), both stored counts are non-negative,
`attendanceData.total` equals `newRegistrations + returningMembers`,
`newRegistrations ≤ total`, and the pie-chart angle lies in `[0, 360]`. -/
theorem c10_home_invariant (calls : List (ℤ × ℤ)) :
    0 ≤ (runHome calls initHome).newRegistrations
    ∧ 0 ≤ (runHome calls initHome).returningMembers
    ∧ (attendanceData (runHome calls initHome)).total
        = (attendanceData (runHome calls initHome)).newRegistrations
          + (attendanceData (runHome calls initHome)).returningMembers
    ∧ (attendanceData (runHome calls initHome)).newRegistrations
        ≤ (attendanceData (runHome calls initHome)).total
    ∧ 0 ≤ homeNewAngle (runHome calls initHome)
    ∧ homeNewAngle (runHome calls initHome) ≤ 360 := by
  obtain ⟨h1, h2⟩ := homeState_nonneg calls initHome (by decide) (by decide)
  have htot : (attendanceData (runHome calls initHome)).newRegistrations
      ≤ (attendanceData (runHome calls initHome)).total := by
    show (runHome calls initHome).newRegistrations
        ≤ (runHome calls initHome).newRegistrations
          + (runHome calls initHome).returningMembers
    omega
  have hang := newAngle_bounds (runHome calls initHome).newRegistrations
    ((runHome calls initHome).newRegistrations
      + (runHome calls initHome).returningMembers)
    h1 (by omega)
  exact ⟨h1, h2, rfl, htot, hang.1, hang.2⟩
